import Mathlib

/-!
Verification development for the training orchestration pipeline of
frame-semantic-transformer (src/frame_semantic_transformer/train.py).

The source is shallowly embedded: scalar losses are rationals, tensors and
the model/tokenizer collaborators are abstract type parameters, and the
per-batch losses an epoch produces are supplied as oracles.  Behaviour of
external collaborators (torch DataLoader reshuffling, the
pytorch_lightning EarlyStopping callback and Trainer epoch loop) that the
repository merely configures is modelled from the specification text, as
marked in the relevant doc comments.
-/

namespace FST

/-! ## Numeric helpers: numpy rounding and torch mean -/

/-- Rounding of a rational to the nearest integer with ties going to the even
integer, the rounding rule used by numpy round. -/
def roundHalfEven (q : ℚ) : ℤ :=
  let f := ⌊q⌋
  let r := q - (f : ℚ)
  if r < 1/2 then f
  else if 1/2 < r then f + 1
  else if f % 2 = 0 then f else f + 1

/-- Embedding of np.round(x, 4): round to 4 decimal digits. -/
def np_round4 (q : ℚ) : ℚ :=
  (roundHalfEven (q * 10000) : ℚ) / 10000

/-- Embedding of torch.mean over a stacked list of scalar losses:
the sum divided by the number of elements. -/
def torchMean (l : List ℚ) : ℚ :=
  l.sum / (l.length : ℚ)

/-! ## Batch provider: DataLoader and TrainDataModule -/

/-- Group a dataset into consecutive batches; the final batch may be ragged
(fewer rows than the batch size). -/
def chunkList (bs : ℕ) : List α → List (List α)
  | [] => []
  | x :: xs => (x :: xs.take (bs - 1)) :: chunkList bs (xs.drop (bs - 1))
termination_by l => l.length
decreasing_by
  simp only [List.length_drop, List.length_cons]
  omega

/-- Embedding of torch.utils.data.DataLoader as configured by
TrainDataModule: a dataset together with batch size, worker count and the
shuffle flag. -/
structure DataLoader (α : Type) where
  dataset : List α
  batch_size : ℕ
  num_workers : ℕ
  shuffle : Bool

/-- Modelled from the spec: iteration of a torch DataLoader (an external
collaborator, not part of this repository).  Restarting iteration for
epoch r yields the batches of a fresh random permutation of the dataset
when shuffle is set, and the batches of the dataset in natural order
otherwise.  The per-restart random permutations are supplied by the
oracle pi. -/
def DataLoader.batches (dl : DataLoader α) (pi : ℕ → List α → List α) (r : ℕ) :
    List (List α) :=
  chunkList dl.batch_size (if dl.shuffle then pi r dl.dataset else dl.dataset)

/-- Embedding of TrainDataModule: the three datasets (test optional) plus
batch size and worker count. -/
structure TrainDataModule (α : Type) where
  batch_size : ℕ
  num_workers : ℕ
  train_dataset : List α
  val_dataset : List α
  test_dataset : Option (List α)

/-- Python truthiness of the optional test dataset: None is falsy, and a
dataset with zero length is falsy. -/
def pyTruthy : Option (List α) → Bool
  | none => false
  | some l => !l.isEmpty

/-- Embedding of TrainDataModule.train_dataloader: the train dataset with
shuffle enabled. -/
def TrainDataModule.train_dataloader (m : TrainDataModule α) : DataLoader α :=
  { dataset := m.train_dataset
    batch_size := m.batch_size
    num_workers := m.num_workers
    shuffle := true }

/-- Embedding of TrainDataModule.val_dataloader: the validation dataset with
shuffle disabled. -/
def TrainDataModule.val_dataloader (m : TrainDataModule α) : DataLoader α :=
  { dataset := m.val_dataset
    batch_size := m.batch_size
    num_workers := m.num_workers
    shuffle := false }

/-- Embedding of TrainDataModule.test_dataloader: the test dataset if it is
truthy, else the validation dataset, with shuffle disabled. -/
def TrainDataModule.test_dataloader (m : TrainDataModule α) : DataLoader α :=
  { dataset := if pyTruthy m.test_dataset
               then m.test_dataset.getD []
               else m.val_dataset
    batch_size := m.batch_size
    num_workers := m.num_workers
    shuffle := false }

/-! ## Step executor: TrainingModelWrapper -/

/-- Embedding of a batch as fed to the model: the three tensor fields.  The
tensor representation is an abstract type parameter. -/
structure T5Batch (T : Type) where
  input_ids : T
  attention_mask : T
  labels : T

/-- Embedding of the output object the model forward pass returns; only its
loss field is consumed by the pipeline. -/
structure ModelOutput where
  loss : ℚ

/-- Embedding of TrainingModelWrapper: learning rate, model and tokenizer
handles, output directory and the checkpoint policy flag.  The model
collaborator is abstract: modelForward is its forward computation on the
three tensor fields. -/
structure TrainingModelWrapper (T M K : Type) where
  lr : ℚ
  model : M
  tokenizer : K
  modelForward : M → T → T → T → ModelOutput
  output_dir : String
  save_only_last_epoch : Bool

/-- Embedding of TrainingModelWrapper.forward: delegate to the wrapped
model. -/
def TrainingModelWrapper.forward (w : TrainingModelWrapper T M K)
    (input_ids attention_mask labels : T) : ModelOutput :=
  w.modelForward w.model input_ids attention_mask labels

/-- Embedding of TrainingModelWrapper._step: run the forward pass on the
input_ids, attention_mask and labels fields of the batch and return the
loss the model reports. -/
def TrainingModelWrapper.stepImpl (w : TrainingModelWrapper T M K)
    (batch : T5Batch T) : ℚ :=
  (w.forward batch.input_ids batch.attention_mask batch.labels).loss

/-- Embedding of TrainingModelWrapper.training_step (the train_loss logging
side effect is dropped): return the loss of the underscore step. -/
def TrainingModelWrapper.training_step (w : TrainingModelWrapper T M K)
    (batch : T5Batch T) (_batch_idx : ℕ) : ℚ :=
  w.stepImpl batch

/-- Embedding of TrainingModelWrapper.validation_step (the val_loss logging
side effect is dropped): return the loss of the underscore step. -/
def TrainingModelWrapper.validation_step (w : TrainingModelWrapper T M K)
    (batch : T5Batch T) (_batch_idx : ℕ) : ℚ :=
  w.stepImpl batch

/-- Embedding of TrainingModelWrapper.test_step (the test_loss logging side
effect is dropped): return the loss of the underscore step. -/
def TrainingModelWrapper.test_step (w : TrainingModelWrapper T M K)
    (batch : T5Batch T) (_batch_idx : ℕ) : ℚ :=
  w.stepImpl batch

/-! ## Epoch-end hooks -/

/-- Embedding of a checkpoint written at an epoch end: the data the source
interpolates into the directory name, plus the saved model and tokenizer
state. -/
structure Checkpoint (M K : Type) where
  output_dir : String
  epoch : ℕ
  train_loss : ℚ
  val_loss : ℚ
  model_state : M
  tokenizer_state : K

/-- Name of a checkpoint directory, mirroring the f-string of
training_epoch_end.  Python str() rendering of a float is abstracted as
the render argument. -/
def Checkpoint.path (c : Checkpoint M K) (render : ℚ → String) : String :=
  c.output_dir ++ "/epoch-" ++ toString c.epoch ++ "-train-loss-" ++
    render c.train_loss ++ "-val-loss-" ++ render c.val_loss

/-- Embedding of TrainingModelWrapper.validation_epoch_end: the average
validation loss attribute is set to the torch mean of the per-batch
validation losses, rounded to 4 decimal digits. -/
def TrainingModelWrapper.validation_epoch_end (_w : TrainingModelWrapper T M K)
    (validation_step_outputs : List ℚ) : ℚ :=
  np_round4 (torchMean validation_step_outputs)

/-- Embedding of TrainingModelWrapper.training_epoch_end: compute the
rounded average training loss, and when save_only_last_epoch is unset or
the current epoch is the last one (max_epochs - 1), save tokenizer and
model as a checkpoint.  Returns the average together with the optional
checkpoint written. -/
def TrainingModelWrapper.training_epoch_end (w : TrainingModelWrapper T M K)
    (current_epoch max_epochs : ℕ) (average_validation_loss : ℚ)
    (training_step_outputs : List ℚ) : ℚ × Option (Checkpoint M K) :=
  let average_training_loss := np_round4 (torchMean training_step_outputs)
  if !w.save_only_last_epoch || (current_epoch == max_epochs - 1) then
    (average_training_loss,
      some { output_dir := w.output_dir
             epoch := current_epoch
             train_loss := average_training_loss
             val_loss := average_validation_loss
             model_state := w.model
             tokenizer_state := w.tokenizer })
  else
    (average_training_loss, none)

/-! ## Early stopping and the epoch control loop -/

/-- State of the early-stopping observer that train attaches when
early_stopping_patience_epochs is positive: patience, the best monitored
value seen so far (none standing for plus infinity) and the count of
consecutive epochs without improvement. -/
structure EarlyStopping where
  patience : ℕ
  best_score : Option ℚ
  wait_count : ℕ

/-- Modelled from the spec: the early-stopping decision of the observer
(pytorch_lightning EarlyStopping, an external collaborator configured by
train with monitor val_loss, min_delta 0.00 and mode min).  Track the
best validation loss seen so far; an epoch improves when its value beats
the best by more than the zero margin; after patience consecutive
non-improving epochs, signal a stop.  Returns the updated state and the
stop signal. -/
def EarlyStopping.observe (es : EarlyStopping) (current : ℚ) :
    EarlyStopping × Bool :=
  let improved := match es.best_score with
    | none => true
    | some b => current < b
  if improved then
    ({ es with best_score := some current, wait_count := 0 }, false)
  else
    let wait := es.wait_count + 1
    ({ es with wait_count := wait }, decide (es.patience ≤ wait))

/-- Dispatch of the per-epoch early-stopping check: when no observer is
attached nothing happens and no stop is signalled; otherwise the observer
examines the monitored epoch value. -/
def esDecide : Option EarlyStopping → ℚ → Option EarlyStopping × Bool
  | none, _ => (none, false)
  | some e, monitored =>
    let r := e.observe monitored
    (some r.1, r.2)

/-- Kinds of callback that train attaches to the trainer. -/
inductive CallbackKind
  | tqdmProgressBar
  | earlyStopping
deriving DecidableEq, Repr

/-- Embedding of the callback list built by train: always a progress bar,
plus an EarlyStopping observer exactly when
early_stopping_patience_epochs is positive. -/
def buildCallbacks (early_stopping_patience_epochs : ℕ) : List CallbackKind :=
  [CallbackKind.tqdmProgressBar] ++
    (if early_stopping_patience_epochs > 0 then [CallbackKind.earlyStopping] else [])

/-- Reason a run stopped: it either completed all max_epochs epochs or was
stopped early by the early-stopping observer. -/
inductive StopReason
  | completed
  | earlyStopped
deriving DecidableEq, Repr

/-- Per-epoch record of the epoch index and the two rounded average
losses. -/
structure EpochSummary where
  epoch_index : ℕ
  average_train_loss : ℚ
  average_validation_loss : ℚ
deriving DecidableEq, Repr

/-- Outcome of a fit run: the per-epoch summaries in order, the checkpoints
written in order, and the stop reason. -/
structure FitResult (M K : Type) where
  summaries : List EpochSummary
  checkpoints : List (Checkpoint M K)
  reason : StopReason

/-- Trainer settings that the epoch loop consumes. -/
structure TrainerConfig where
  max_epochs : ℕ
  early_stopping_patience_epochs : ℕ

/-- Modelled from the spec: the epoch loop of the pytorch_lightning Trainer
(an external collaborator) driving the lifecycle hooks of
TrainingModelWrapper.  Each epoch runs all training batches then all
validation batches; the per-batch losses these produce are supplied by
the oracles trainLosses and valLosses.  At the end of an epoch the
validation epoch-end hook runs, then the early-stopping observer (if
attached) examines the epoch val_loss metric, then the training
epoch-end hook runs (writing a checkpoint when the policy says to); a
stop signal ends the run after the current epoch with reason
earlyStopped, and exhausting max_epochs ends it with reason
completed. -/
def fitLoop (w : TrainingModelWrapper T M K) (cfg : TrainerConfig)
    (trainLosses valLosses : ℕ → List ℚ) :
    ℕ → ℕ → Option EarlyStopping → FitResult M K
  | 0, _, _ => { summaries := [], checkpoints := [], reason := StopReason.completed }
  | fuel + 1, epoch, es =>
    let average_validation_loss := w.validation_epoch_end (valLosses epoch)
    let stepES := esDecide es (torchMean (valLosses epoch))
    let trainEnd :=
      w.training_epoch_end epoch cfg.max_epochs average_validation_loss
        (trainLosses epoch)
    let summary : EpochSummary :=
      { epoch_index := epoch
        average_train_loss := trainEnd.1
        average_validation_loss := average_validation_loss }
    if stepES.2 then
      { summaries := [summary]
        checkpoints := trainEnd.2.toList
        reason := StopReason.earlyStopped }
    else
      let rest := fitLoop w cfg trainLosses valLosses fuel (epoch + 1) stepES.1
      { summaries := summary :: rest.summaries
        checkpoints := trainEnd.2.toList ++ rest.checkpoints
        reason := rest.reason }

/-- Embedding of trainer.fit as configured by train: run the epoch loop
from epoch 0 for at most max_epochs epochs, with the early-stopping
observer attached exactly when early_stopping_patience_epochs is
positive. -/
def trainerFit (w : TrainingModelWrapper T M K) (cfg : TrainerConfig)
    (trainLosses valLosses : ℕ → List ℚ) : FitResult M K :=
  fitLoop w cfg trainLosses valLosses cfg.max_epochs 0
    (if cfg.early_stopping_patience_epochs > 0
     then some { patience := cfg.early_stopping_patience_epochs
                 best_score := none
                 wait_count := 0 }
     else none)

/-! ## Specification-side description of the early-stopping streak -/

/-- Best monitored validation value among epochs 0..n-1 (none when no epoch
has been seen yet), written from the words of the spec independently of
the observer state machine. -/
def bestSoFar (l : ℕ → ℚ) : ℕ → Option ℚ
  | 0 => none
  | n + 1 =>
    match bestSoFar l n with
    | none => some (l n)
    | some b => some (min b (l n))

/-- Number of consecutive epochs without improvement on the best value seen
so far, counted at the end of epoch n-1 (0 when the streak was broken by
an improvement at that epoch). -/
def waitAfter (l : ℕ → ℚ) : ℕ → ℕ
  | 0 => 0
  | n + 1 =>
    match bestSoFar l n with
    | none => 0
    | some b => if l n < b then 0 else waitAfter l n + 1

/-- Condition under which training_epoch_end writes a checkpoint at a given
epoch, as a boolean predicate on the epoch index. -/
def savesAt (solo : Bool) (max_epochs i : ℕ) : Bool :=
  !solo || (i == max_epochs - 1)

/-! ## Device resolution -/

/-- Kind of execution device train resolves. -/
inductive DeviceKind
  | cuda
  | cpu
deriving DecidableEq, Repr

/-- Embedding of the device resolution in train: cuda when use_gpu is set,
cpu otherwise. -/
def resolveDevice (use_gpu : Bool) : DeviceKind :=
  if use_gpu then DeviceKind.cuda else DeviceKind.cpu

/-- Embedding of the default value of the use_gpu parameter of train:
torch.cuda.is_available(), supplied here as an abstract boolean. -/
def defaultUseGpu (cuda_is_available : Bool) : Bool :=
  cuda_is_available

/-- Embedding of the gpus argument train passes to the Trainer: 1 when
use_gpu is set, 0 otherwise. -/
def trainerGpus (use_gpu : Bool) : ℕ :=
  if use_gpu then 1 else 0

/-! ## Concrete instances used to evaluate the pipeline -/

/-- Wrapper instance with trivial collaborators, used to evaluate the
pipeline on concrete inputs. -/
def unitWrapper (solo : Bool) : TrainingModelWrapper Unit Unit Unit :=
  { lr := 1/10000
    model := ()
    tokenizer := ()
    modelForward := fun _ _ _ _ => { loss := 1 }
    output_dir := "outputs"
    save_only_last_epoch := solo }

/-- Constant per-epoch batch losses for runs where the values do not
matter. -/
def constLosses : ℕ → List ℚ :=
  fun _ => [1]

/-- Per-epoch validation loss values of the early-stopping example:
1.0, 0.9, 0.95, 0.97, 1.1. -/
def exampleMonitor : ℕ → ℚ :=
  fun i => [(1 : ℚ), 9/10, 19/20, 97/100, 11/10].getD i 0

/-- The early-stopping example as one single-batch validation phase per
epoch. -/
def exampleValLosses : ℕ → List ℚ :=
  fun i => [exampleMonitor i]

/-- Strictly worsening per-epoch validation losses: 1, 2, 3, ... -/
def risingValLosses : ℕ → List ℚ :=
  fun i => [(1 : ℚ) + i]

/-- Data module with an absent test dataset. -/
def moduleNoTest : TrainDataModule ℕ :=
  { batch_size := 2
    num_workers := 0
    train_dataset := [1, 2, 3]
    val_dataset := [4, 5, 6, 7]
    test_dataset := none }

/-- Data module with a present, non-empty test dataset. -/
def moduleWithTest : TrainDataModule ℕ :=
  { batch_size := 2
    num_workers := 0
    train_dataset := [1, 2, 3]
    val_dataset := [4, 5]
    test_dataset := some [9, 10, 11] }

/-- Permutation oracle that reverses the dataset at every restart. -/
def reversePi : ℕ → List ℕ → List ℕ :=
  fun _ l => l.reverse

/-! ## Characterization lemmas -/

/-- Observing epoch n from the state describing epochs 0..n-1 yields the
state describing epochs 0..n, and signals a stop exactly when the
non-improvement streak has reached the (positive) patience. -/
theorem observe_prefix (p : ℕ) (hp : 0 < p) (l : ℕ → ℚ) (n : ℕ) :
    (EarlyStopping.mk p (bestSoFar l n) (waitAfter l n)).observe (l n) =
      (EarlyStopping.mk p (bestSoFar l (n + 1)) (waitAfter l (n + 1)),
        decide (p ≤ waitAfter l (n + 1))) := by
  rcases h : bestSoFar l n with _ | b
  · simp [EarlyStopping.observe, bestSoFar, waitAfter, h, Nat.le_zero, Nat.pos_iff_ne_zero.mp hp]
  · by_cases hlt : l n < b
    · simp [EarlyStopping.observe, bestSoFar, waitAfter, h, hlt,
        min_eq_right hlt.le, Nat.le_zero, Nat.pos_iff_ne_zero.mp hp]
    · simp [EarlyStopping.observe, bestSoFar, waitAfter, h, hlt,
        min_eq_left (le_of_not_lt hlt)]

/-- Concatenating the batches of a dataset recovers the dataset. -/
theorem chunkList_flatten (bs : ℕ) : ∀ (l : List α), (chunkList bs l).flatten = l
  | [] => by simp [chunkList]
  | x :: xs => by
    rw [chunkList]
    simp only [List.flatten_cons, chunkList_flatten bs (xs.drop (bs - 1))]
    simp [List.cons_append]
termination_by l => l.length
decreasing_by
  simp only [List.length_drop, List.length_cons]
  omega

theorem training_epoch_end_ckpt (w : TrainingModelWrapper T M K)
    (i max_epochs : ℕ) (v : ℚ) (outs : List ℚ) :
    (w.training_epoch_end i max_epochs v outs).2.toList.map
        (fun c => c.epoch) =
      if savesAt w.save_only_last_epoch max_epochs i then [i] else [] := by
  simp only [TrainingModelWrapper.training_epoch_end, savesAt]
  split <;> simp

/-- With no early-stopping observer attached, the loop runs through all of
its fuel: one summary per epoch, ending with reason completed. -/
theorem fitLoop_none (w : TrainingModelWrapper T M K) (cfg : TrainerConfig)
    (tl vl : ℕ → List ℚ) :
    ∀ (fuel epoch : ℕ),
      (fitLoop w cfg tl vl fuel epoch none).summaries.length = fuel ∧
        (fitLoop w cfg tl vl fuel epoch none).reason = StopReason.completed := by
  intro fuel
  induction fuel with
  | zero => intro epoch; exact ⟨rfl, rfl⟩
  | succ n ih =>
    intro epoch
    simp only [fitLoop, esDecide]
    exact ⟨by simp [(ih (epoch + 1)).1], (ih (epoch + 1)).2⟩

/-- Summaries carry consecutive epoch indices starting at the loop start
index. -/
theorem fitLoop_summaries_idx (w : TrainingModelWrapper T M K)
    (cfg : TrainerConfig) (tl vl : ℕ → List ℚ) :
    ∀ (fuel epoch : ℕ) (es : Option EarlyStopping),
      (fitLoop w cfg tl vl fuel epoch es).summaries.map
          EpochSummary.epoch_index =
        List.range' epoch (fitLoop w cfg tl vl fuel epoch es).summaries.length := by
  intro fuel
  induction fuel with
  | zero => intro epoch es; rfl
  | succ n ih =>
    intro epoch es
    simp only [fitLoop]
    split
    · simp
    · simp only [List.map_cons, List.length_cons, List.range'_succ]
      rw [ih (epoch + 1)]

/-- The epochs at which checkpoints are written are exactly the executed
epochs that satisfy the save condition. -/
theorem fitLoop_ckpt_idx (w : TrainingModelWrapper T M K)
    (cfg : TrainerConfig) (tl vl : ℕ → List ℚ) :
    ∀ (fuel epoch : ℕ) (es : Option EarlyStopping),
      (fitLoop w cfg tl vl fuel epoch es).checkpoints.map (fun c => c.epoch) =
        ((fitLoop w cfg tl vl fuel epoch es).summaries.map
            EpochSummary.epoch_index).filter
          (savesAt w.save_only_last_epoch cfg.max_epochs) := by
  intro fuel
  induction fuel with
  | zero => intro epoch es; rfl
  | succ n ih =>
    intro epoch es
    simp only [fitLoop]
    split
    · simp only [List.map_cons, List.map_nil, List.filter_cons,
        training_epoch_end_ckpt]
      split <;> simp
    · simp only [List.map_cons, List.map_append, List.filter_cons,
        training_epoch_end_ckpt, ih (epoch + 1)]
      split <;> simp

/-- When the non-improvement streak of the monitored sequence never reaches
the patience within the remaining fuel, the loop runs through all of it
and completes. -/
theorem fitLoop_es_complete (w : TrainingModelWrapper T M K)
    (cfg : TrainerConfig) (tl vl : ℕ → List ℚ) (l : ℕ → ℚ)
    (hl : ∀ i, torchMean (vl i) = l i) (p : ℕ) (hp : 0 < p) :
    ∀ (fuel epoch : ℕ),
      (∀ e, epoch ≤ e → e < epoch + fuel → waitAfter l (e + 1) < p) →
      (fitLoop w cfg tl vl fuel epoch
          (some ⟨p, bestSoFar l epoch, waitAfter l epoch⟩)).summaries.length =
          fuel ∧
        (fitLoop w cfg tl vl fuel epoch
            (some ⟨p, bestSoFar l epoch, waitAfter l epoch⟩)).reason =
          StopReason.completed := by
  intro fuel
  induction fuel with
  | zero => intro epoch _; exact ⟨rfl, rfl⟩
  | succ n ih =>
    intro epoch hall
    simp only [fitLoop, esDecide, hl, observe_prefix p hp l epoch]
    rw [if_neg (by
      simp only [decide_eq_true_eq]
      exact Nat.not_le.mpr (hall epoch le_rfl (by omega)))]
    have h := ih (epoch + 1) (fun e a b => hall e (by omega) (by omega))
    exact ⟨by simp [h.1], h.2⟩

/-- When epoch e is the first epoch at which the non-improvement streak of
the monitored sequence reaches the patience, and it lies within the
remaining fuel, the loop stops early right after epoch e. -/
theorem fitLoop_es_stop (w : TrainingModelWrapper T M K)
    (cfg : TrainerConfig) (tl vl : ℕ → List ℚ) (l : ℕ → ℚ)
    (hl : ∀ i, torchMean (vl i) = l i) (p : ℕ) (hp : 0 < p) :
    ∀ (fuel epoch e : ℕ), epoch ≤ e → e < epoch + fuel →
      p ≤ waitAfter l (e + 1) →
      (∀ e', epoch ≤ e' → e' < e → waitAfter l (e' + 1) < p) →
      (fitLoop w cfg tl vl fuel epoch
          (some ⟨p, bestSoFar l epoch, waitAfter l epoch⟩)).summaries.length =
          e + 1 - epoch ∧
        (fitLoop w cfg tl vl fuel epoch
            (some ⟨p, bestSoFar l epoch, waitAfter l epoch⟩)).reason =
          StopReason.earlyStopped := by
  intro fuel
  induction fuel with
  | zero => intro epoch e h1 h2 _ _; omega
  | succ n ih =>
    intro epoch e h1 h2 hstop hmin
    simp only [fitLoop, esDecide, hl, observe_prefix p hp l epoch]
    rcases eq_or_lt_of_le h1 with rfl | hlt
    · rw [if_pos (by simp [hstop])]
      exact ⟨by simp, rfl⟩
    · rw [if_neg (by
        simp only [decide_eq_true_eq]
        exact Nat.not_le.mpr (hmin epoch le_rfl hlt))]
      have h := ih (epoch + 1) e hlt (by omega) hstop
        (fun e' a b => hmin e' (by omega) b)
      exact ⟨by simp only [List.length_cons, h.1]; omega, h.2⟩

/-! ## Claim theorems -/

/-- C1: at the end of each executed training epoch i, a checkpoint is
persisted if and only if save_only_last_epoch is false or i equals
max_epochs - 1 (the checkpointed epochs are exactly the executed epochs
passing that condition); consequently a run with save_only_last_epoch
true and max_epochs 5 that completes all 5 epochs writes exactly one
checkpoint, at epoch index 4, and the same run with
save_only_last_epoch false writes one checkpoint per epoch. -/
theorem C1_checkpoint_policy :
    (∀ (T M K : Type) (w : TrainingModelWrapper T M K) (cfg : TrainerConfig)
        (tl vl : ℕ → List ℚ),
      (trainerFit w cfg tl vl).checkpoints.map (fun c => c.epoch) =
        ((trainerFit w cfg tl vl).summaries.map EpochSummary.epoch_index).filter
          (fun i => !w.save_only_last_epoch || (i == cfg.max_epochs - 1))) ∧
    (trainerFit (unitWrapper true)
          { max_epochs := 5, early_stopping_patience_epochs := 0 }
          constLosses constLosses).summaries.length = 5 ∧
    (trainerFit (unitWrapper true)
          { max_epochs := 5, early_stopping_patience_epochs := 0 }
          constLosses constLosses).checkpoints.map (fun c => c.epoch) = [4] ∧
    (trainerFit (unitWrapper false)
          { max_epochs := 5, early_stopping_patience_epochs := 0 }
          constLosses constLosses).checkpoints.map (fun c => c.epoch) =
      [0, 1, 2, 3, 4] := by
  refine ⟨?_, by decide, by decide, by decide⟩
  intro T M K w cfg tl vl
  exact fitLoop_ckpt_idx w cfg tl vl cfg.max_epochs 0 _

/-- Evaluation of the early-stopping example run: reason. -/
theorem exampleRun_reason :
    (trainerFit (unitWrapper false)
          { max_epochs := 5, early_stopping_patience_epochs := 2 }
          constLosses exampleValLosses).reason = StopReason.earlyStopped := by
  norm_num [trainerFit, fitLoop, esDecide, EarlyStopping.observe,
    TrainingModelWrapper.validation_epoch_end,
    TrainingModelWrapper.training_epoch_end, unitWrapper, constLosses,
    exampleValLosses, exampleMonitor, torchMean, decide_eq_true_eq]

/-- Evaluation of the early-stopping example run: executed epoch indices. -/
theorem exampleRun_idx :
    (trainerFit (unitWrapper false)
          { max_epochs := 5, early_stopping_patience_epochs := 2 }
          constLosses exampleValLosses).summaries.map EpochSummary.epoch_index =
      [0, 1, 2, 3] := by
  norm_num [trainerFit, fitLoop, esDecide, EarlyStopping.observe,
    TrainingModelWrapper.validation_epoch_end,
    TrainingModelWrapper.training_epoch_end, unitWrapper, constLosses,
    exampleValLosses, exampleMonitor, torchMean, decide_eq_true_eq]

/-- C2 counterexample: with patience 2 and per-epoch validation losses
1.0, 0.9, 0.95, 0.97, 1.1 the run stops early after epoch index 3, not
after epoch index 4 as the claim states: epochs 2 and 3 are already 2
consecutive epochs without improvement on the best value 0.9. -/
theorem C2_counterexample :
    (trainerFit (unitWrapper false)
          { max_epochs := 5, early_stopping_patience_epochs := 2 }
          constLosses exampleValLosses).reason = StopReason.earlyStopped ∧
    (trainerFit (unitWrapper false)
          { max_epochs := 5, early_stopping_patience_epochs := 2 }
          constLosses exampleValLosses).summaries.map EpochSummary.epoch_index =
      [0, 1, 2, 3] ∧
    ¬ ((trainerFit (unitWrapper false)
            { max_epochs := 5, early_stopping_patience_epochs := 2 }
            constLosses exampleValLosses).summaries.map
          EpochSummary.epoch_index).getLast? = some 4 := by
  refine ⟨exampleRun_reason, exampleRun_idx, ?_⟩
  rw [exampleRun_idx]
  simp

/-- C2 (amended): when early_stopping_patience_epochs is positive, the run
stops early after epoch index e exactly when e is the first epoch at
which the validation loss has failed to improve on the best value seen
so far, by at least a zero margin, for patience consecutive epochs;
when no such epoch exists the run completes all max_epochs epochs; in
particular with patience 2 and per-epoch validation losses 1.0, 0.9,
0.95, 0.97, 1.1 the run stops after epoch index 3 (not 4). -/
theorem C2_early_stopping :
    (∀ (T M K : Type) (w : TrainingModelWrapper T M K) (cfg : TrainerConfig)
        (tl vl : ℕ → List ℚ) (l : ℕ → ℚ) (e : ℕ),
      (∀ i, torchMean (vl i) = l i) →
      0 < cfg.early_stopping_patience_epochs →
      e < cfg.max_epochs →
      cfg.early_stopping_patience_epochs ≤ waitAfter l (e + 1) →
      (∀ e', e' < e →
        waitAfter l (e' + 1) < cfg.early_stopping_patience_epochs) →
      (trainerFit w cfg tl vl).reason = StopReason.earlyStopped ∧
        (trainerFit w cfg tl vl).summaries.map EpochSummary.epoch_index =
          List.range' 0 (e + 1)) ∧
    (∀ (T M K : Type) (w : TrainingModelWrapper T M K) (cfg : TrainerConfig)
        (tl vl : ℕ → List ℚ) (l : ℕ → ℚ),
      (∀ i, torchMean (vl i) = l i) →
      0 < cfg.early_stopping_patience_epochs →
      (∀ e, e < cfg.max_epochs →
        waitAfter l (e + 1) < cfg.early_stopping_patience_epochs) →
      (trainerFit w cfg tl vl).reason = StopReason.completed ∧
        (trainerFit w cfg tl vl).summaries.length = cfg.max_epochs) ∧
    ((trainerFit (unitWrapper false)
          { max_epochs := 5, early_stopping_patience_epochs := 2 }
          constLosses exampleValLosses).reason = StopReason.earlyStopped ∧
      (trainerFit (unitWrapper false)
            { max_epochs := 5, early_stopping_patience_epochs := 2 }
            constLosses exampleValLosses).summaries.map
          EpochSummary.epoch_index = [0, 1, 2, 3]) := by
  refine ⟨?_, ?_, exampleRun_reason, exampleRun_idx⟩
  · intro T M K w cfg tl vl l e hl hp he hstop hmin
    have h := fitLoop_es_stop w cfg tl vl l hl
      cfg.early_stopping_patience_epochs hp cfg.max_epochs 0 e (Nat.zero_le e)
      (by omega) hstop (fun e' _ hb => hmin e' hb)
    have h1 : (fitLoop w cfg tl vl cfg.max_epochs 0
        (some { patience := cfg.early_stopping_patience_epochs
                best_score := none
                wait_count := 0 })).summaries.length = e + 1 - 0 := h.1
    have h2 : (fitLoop w cfg tl vl cfg.max_epochs 0
        (some { patience := cfg.early_stopping_patience_epochs
                best_score := none
                wait_count := 0 })).reason = StopReason.earlyStopped := h.2
    have hfit : trainerFit w cfg tl vl =
        fitLoop w cfg tl vl cfg.max_epochs 0
          (some { patience := cfg.early_stopping_patience_epochs
                  best_score := none
                  wait_count := 0 }) := by
      simp [trainerFit, hp]
    refine ⟨hfit ▸ h2, ?_⟩
    rw [hfit, fitLoop_summaries_idx, h1]
    simp
  · intro T M K w cfg tl vl l hl hp hall
    have h := fitLoop_es_complete w cfg tl vl l hl
      cfg.early_stopping_patience_epochs hp cfg.max_epochs 0
      (fun e _ hb => hall e (by omega))
    have h1 : (fitLoop w cfg tl vl cfg.max_epochs 0
        (some { patience := cfg.early_stopping_patience_epochs
                best_score := none
                wait_count := 0 })).summaries.length = cfg.max_epochs := h.1
    have h2 : (fitLoop w cfg tl vl cfg.max_epochs 0
        (some { patience := cfg.early_stopping_patience_epochs
                best_score := none
                wait_count := 0 })).reason = StopReason.completed := h.2
    have hfit : trainerFit w cfg tl vl =
        fitLoop w cfg tl vl cfg.max_epochs 0
          (some { patience := cfg.early_stopping_patience_epochs
                  best_score := none
                  wait_count := 0 }) := by
      simp [trainerFit, hp]
    exact ⟨hfit ▸ h2, hfit ▸ h1⟩

/-- C2 witness: the amended characterization applied to the concrete
example with patience 2 and losses 1.0, 0.9, 0.95, 0.97, 1.1, whose
first epoch with a 2-epoch non-improvement streak is epoch 3. -/
theorem C2_witness :
    (trainerFit (unitWrapper false)
          { max_epochs := 5, early_stopping_patience_epochs := 2 }
          constLosses exampleValLosses).reason = StopReason.earlyStopped ∧
      (trainerFit (unitWrapper false)
            { max_epochs := 5, early_stopping_patience_epochs := 2 }
            constLosses exampleValLosses).summaries.map
          EpochSummary.epoch_index = List.range' 0 4 :=
  C2_early_stopping.1 Unit Unit Unit (unitWrapper false)
    { max_epochs := 5, early_stopping_patience_epochs := 2 }
    constLosses exampleValLosses exampleMonitor 3
    (fun i => by simp [exampleValLosses, torchMean])
    (by decide) (by decide)
    (by norm_num [waitAfter, bestSoFar, exampleMonitor])
    (fun e' he' => by
      interval_cases e' <;> norm_num [waitAfter, bestSoFar, exampleMonitor])

/-- C3: for every epoch with a nonempty batch list, the average training
loss and the average validation loss are the unweighted arithmetic mean
of the per-batch scalar losses of that epoch (each batch weighted
equally, so a ragged final batch counts the same as a full one), rounded
to 4 decimal digits. -/
theorem C3_average_losses :
    ∀ (T M K : Type) (w : TrainingModelWrapper T M K)
      (current_epoch max_epochs : ℕ) (v : ℚ) (touts vouts : List ℚ),
      touts ≠ [] → vouts ≠ [] →
      (w.training_epoch_end current_epoch max_epochs v touts).1 =
          np_round4 (touts.sum / (touts.length : ℚ)) ∧
        w.validation_epoch_end vouts =
          np_round4 (vouts.sum / (vouts.length : ℚ)) := by
  intro T M K w current_epoch max_epochs v touts vouts _ _
  constructor
  · simp only [TrainingModelWrapper.training_epoch_end, torchMean]
    split <;> rfl
  · rfl

/-- C3 witness: the average of the two batch losses 1/2 and 1/4 as computed
by the epoch-end hooks. -/
theorem C3_witness :
    ((unitWrapper false).training_epoch_end 0 5 1 [1/2, 1/4]).1 =
        np_round4 (([(1 : ℚ)/2, 1/4].sum) / (([(1 : ℚ)/2, 1/4].length : ℚ)) ) ∧
      (unitWrapper false).validation_epoch_end [1/2, 1/4] =
        np_round4 (([(1 : ℚ)/2, 1/4].sum) / (([(1 : ℚ)/2, 1/4].length : ℚ)) ) :=
  C3_average_losses Unit Unit Unit (unitWrapper false) 0 5 1
    [1/2, 1/4] [1/2, 1/4] (by simp) (by simp)

/-- C4: when the test dataset is absent or empty, the test dataloader
serves exactly the validation dataset batches, same contents and order,
with shuffling disabled; when a nonempty test dataset is present its
batches are served in natural order. -/
theorem C4_test_fallback :
    ∀ (α : Type) (m : TrainDataModule α) (pi : ℕ → List α → List α) (r : ℕ),
      ((m.test_dataset = none ∨ m.test_dataset = some []) →
        m.test_dataloader.batches pi r = m.val_dataloader.batches pi r) ∧
      (∀ l, m.test_dataset = some l → l ≠ [] →
        m.test_dataloader.batches pi r = chunkList m.batch_size l) ∧
      m.test_dataloader.shuffle = false ∧ m.val_dataloader.shuffle = false := by
  intro α m pi r
  refine ⟨?_, ?_, rfl, rfl⟩
  · rintro (h | h) <;>
      simp [TrainDataModule.test_dataloader, TrainDataModule.val_dataloader,
        DataLoader.batches, pyTruthy, h]
  · intro l h hne
    simp [TrainDataModule.test_dataloader, DataLoader.batches, pyTruthy, h, hne]

/-- C4 witness: the fallback on a module with an absent test dataset, and
the natural-order batches on a module with a present test dataset. -/
theorem C4_witness :
    (moduleNoTest.test_dataloader.batches reversePi 0 =
        moduleNoTest.val_dataloader.batches reversePi 0) ∧
      moduleWithTest.test_dataloader.batches reversePi 0 =
        chunkList 2 [9, 10, 11] :=
  ⟨(C4_test_fallback ℕ moduleNoTest reversePi 0).1 (Or.inl rfl),
    (C4_test_fallback ℕ moduleWithTest reversePi 0).2.1 [9, 10, 11] rfl
      (by simp)⟩

/-- C5: at every restart r, the train dataloader serves the batches of the
fresh permutation the shuffle oracle produces for r (so the delivered
samples are a permutation of the train dataset), while the validation
and test dataloaders serve the dataset in natural order, identically
across restarts. -/
theorem C5_shuffling :
    ∀ (α : Type) (m : TrainDataModule α) (pi : ℕ → List α → List α)
      (r r1 r2 : ℕ),
      (∀ s, (pi s m.train_dataset).Perm m.train_dataset) →
      m.train_dataloader.batches pi r =
          chunkList m.batch_size (pi r m.train_dataset) ∧
        (m.train_dataloader.batches pi r).flatten.Perm m.train_dataset ∧
        m.val_dataloader.batches pi r1 = m.val_dataloader.batches pi r2 ∧
        m.val_dataloader.batches pi r = chunkList m.batch_size m.val_dataset ∧
        m.test_dataloader.batches pi r1 = m.test_dataloader.batches pi r2 := by
  intro α m pi r r1 r2 hperm
  refine ⟨rfl, ?_, rfl, rfl, rfl⟩
  rw [DataLoader.batches]
  simp only [TrainDataModule.train_dataloader, if_pos rfl]
  rw [chunkList_flatten]
  exact hperm r

/-- C5 witness: the reversing shuffle oracle on a concrete module. -/
theorem C5_witness :
    (moduleNoTest.train_dataloader.batches reversePi 0).flatten.Perm
        [1, 2, 3] ∧
      moduleNoTest.val_dataloader.batches reversePi 0 =
        moduleNoTest.val_dataloader.batches reversePi 1 :=
  ⟨(C5_shuffling ℕ moduleNoTest reversePi 0 0 1
      (fun _ => List.reverse_perm [1, 2, 3])).2.1,
    (C5_shuffling ℕ moduleNoTest reversePi 0 0 1
      (fun _ => List.reverse_perm [1, 2, 3])).2.2.1⟩

/-- C6: for every batch, the train, validation and test step operations
return the same value, namely the loss reported by the model forward
pass on the input_ids, attention_mask and labels fields of the batch. -/
theorem C6_step_equivalence :
    ∀ (T M K : Type) (w : TrainingModelWrapper T M K) (batch : T5Batch T)
      (i j k : ℕ),
      w.training_step batch i = w.stepImpl batch ∧
        w.validation_step batch j = w.stepImpl batch ∧
        w.test_step batch k = w.stepImpl batch ∧
        w.stepImpl batch =
          (w.modelForward w.model batch.input_ids batch.attention_mask
              batch.labels).loss := by
  intro T M K w batch i j k
  exact ⟨rfl, rfl, rfl, rfl⟩

/-- C7 counterexample: the resolved device is determined by the use_gpu
argument alone; at the concrete input gpu_available = false with
use_gpu = true (a GPU explicitly requested on a machine without one) the
code resolves the GPU device even though a GPU is not available and
requested, refuting the claimed equivalence. -/
theorem C7_counterexample :
    resolveDevice true = DeviceKind.cuda ∧
      defaultUseGpu false = false ∧
      ¬ (resolveDevice true = DeviceKind.cuda ↔
          (false = true ∧ true = true)) := by
  refine ⟨rfl, rfl, ?_⟩
  intro h
  exact absurd ((h.mp rfl).1) (by decide)

/-- C7 (amended): the execution device resolved once per run by train is
GPU if and only if use_gpu is true, and CPU otherwise; use_gpu defaults
to GPU availability, so under the default the device is GPU exactly when
a GPU is available; the same use_gpu value also fixes the gpus count
handed to the trainer. -/
theorem C7_device_resolution :
    ∀ (use_gpu avail : Bool),
      (resolveDevice use_gpu = DeviceKind.cuda ↔ use_gpu = true) ∧
        (resolveDevice use_gpu = DeviceKind.cpu ↔ use_gpu = false) ∧
        (resolveDevice (defaultUseGpu avail) = DeviceKind.cuda ↔
          avail = true) ∧
        (trainerGpus use_gpu = 1 ↔ use_gpu = true) := by
  decide

/-- C8: when early_stopping_patience_epochs is 0, no early-stopping
observer is attached to the callback list, and a run with max_epochs N
executes exactly N epochs, produces exactly N epoch summaries and ends
with reason completed. -/
theorem C8_fixed_epochs :
    ∀ (T M K : Type) (w : TrainingModelWrapper T M K) (cfg : TrainerConfig)
      (tl vl : ℕ → List ℚ),
      cfg.early_stopping_patience_epochs = 0 →
      CallbackKind.earlyStopping ∉
          buildCallbacks cfg.early_stopping_patience_epochs ∧
        (trainerFit w cfg tl vl).summaries.length = cfg.max_epochs ∧
        (trainerFit w cfg tl vl).reason = StopReason.completed := by
  intro T M K w cfg tl vl h
  have hrun := fitLoop_none w cfg tl vl cfg.max_epochs 0
  refine ⟨by simp [buildCallbacks, h], ?_, ?_⟩
  · simpa [trainerFit, h] using hrun.1
  · simpa [trainerFit, h] using hrun.2

/-- C8 witness: the run with max_epochs 3 and patience 0 executes exactly
3 epochs and completes. -/
theorem C8_witness :
    CallbackKind.earlyStopping ∉ buildCallbacks 0 ∧
      (trainerFit (unitWrapper false)
            { max_epochs := 3, early_stopping_patience_epochs := 0 }
            constLosses constLosses).summaries.length = 3 ∧
      (trainerFit (unitWrapper false)
            { max_epochs := 3, early_stopping_patience_epochs := 0 }
            constLosses constLosses).reason = StopReason.completed :=
  C8_fixed_epochs Unit Unit Unit (unitWrapper false)
    { max_epochs := 3, early_stopping_patience_epochs := 0 }
    constLosses constLosses rfl

/-- C9: every checkpoint written at the end of epoch i is the directory
output_dir/epoch-i-train-loss-t-val-loss-v (t and v the rendered rounded
average train and validation losses of that epoch) and contains the
model and tokenizer state of the wrapper. -/
theorem C9_checkpoint_name_contents :
    ∀ (T M K : Type) (w : TrainingModelWrapper T M K)
      (current_epoch max_epochs : ℕ) (v : ℚ) (outs : List ℚ)
      (c : Checkpoint M K) (render : ℚ → String),
      (w.training_epoch_end current_epoch max_epochs v outs).2 = some c →
      c.path render =
          w.output_dir ++ "/epoch-" ++ toString current_epoch ++
            "-train-loss-" ++ render (np_round4 (torchMean outs)) ++
            "-val-loss-" ++ render v ∧
        c.epoch = current_epoch ∧
        c.train_loss = np_round4 (torchMean outs) ∧
        c.val_loss = v ∧
        c.model_state = w.model ∧
        c.tokenizer_state = w.tokenizer := by
  intro T M K w current_epoch max_epochs v outs c render h
  simp only [TrainingModelWrapper.training_epoch_end] at h
  split at h
  · cases h
    exact ⟨rfl, rfl, rfl, rfl, rfl, rfl⟩
  · cases h

/-- C9 witness: the checkpoint written by training_epoch_end at epoch 0 of
a 5-epoch run. -/
theorem C9_witness :
    (Checkpoint.path
          { output_dir := "outputs"
            epoch := 0
            train_loss := np_round4 (torchMean [1])
            val_loss := 1
            model_state := ()
            tokenizer_state := () } (fun _ => "L")) =
        "outputs" ++ "/epoch-" ++ toString 0 ++ "-train-loss-" ++ "L" ++
          "-val-loss-" ++ "L" ∧
      (0 : ℕ) = 0 ∧
      np_round4 (torchMean [1]) = np_round4 (torchMean [1]) ∧
      (1 : ℚ) = 1 ∧
      () = (unitWrapper false).model ∧
      () = (unitWrapper false).tokenizer :=
  C9_checkpoint_name_contents Unit Unit Unit (unitWrapper false) 0 5 1 [1]
    { output_dir := "outputs"
      epoch := 0
      train_loss := np_round4 (torchMean [1])
      val_loss := 1
      model_state := ()
      tokenizer_state := () } (fun _ => "L") rfl

/-- C10: with save_only_last_epoch set, a run that early stopping halts
before reaching epoch max_epochs - 1 writes no checkpoint at all: the
save condition compares the epoch only against max_epochs - 1, never
against the actual final epoch of the run. -/
theorem C10_early_stop_skips_checkpoint :
    ∀ (T M K : Type) (w : TrainingModelWrapper T M K) (cfg : TrainerConfig)
      (tl vl : ℕ → List ℚ),
      w.save_only_last_epoch = true →
      (trainerFit w cfg tl vl).reason = StopReason.earlyStopped →
      (trainerFit w cfg tl vl).summaries.length < cfg.max_epochs →
      (trainerFit w cfg tl vl).checkpoints = [] := by
  intro T M K w cfg tl vl hsolo _hreason hlen
  have hmap : (trainerFit w cfg tl vl).checkpoints.map (fun c => c.epoch) =
      ((trainerFit w cfg tl vl).summaries.map EpochSummary.epoch_index).filter
        (savesAt w.save_only_last_epoch cfg.max_epochs) :=
    fitLoop_ckpt_idx w cfg tl vl cfg.max_epochs 0 _
  have hidx : (trainerFit w cfg tl vl).summaries.map EpochSummary.epoch_index =
      List.range' 0 (trainerFit w cfg tl vl).summaries.length :=
    fitLoop_summaries_idx w cfg tl vl cfg.max_epochs 0 _
  have hnil : ((trainerFit w cfg tl vl).summaries.map
        EpochSummary.epoch_index).filter
      (savesAt w.save_only_last_epoch cfg.max_epochs) = [] := by
    rw [hidx]
    apply List.filter_eq_nil_iff.mpr
    intro a ha
    have ha' := List.mem_range'_1.mp ha
    simp only [savesAt, hsolo, Bool.not_true, Bool.false_or, beq_iff_eq]
    omega
  exact List.map_eq_nil_iff.mp (hmap.trans hnil)

/-- C10 witness: a save_only_last_epoch run with max_epochs 5 and patience
1 on strictly worsening validation losses stops after epoch 1 and writes
no checkpoint. -/
theorem C10_witness :
    (trainerFit (unitWrapper true)
          { max_epochs := 5, early_stopping_patience_epochs := 1 }
          constLosses risingValLosses).checkpoints = [] :=
  C10_early_stop_skips_checkpoint Unit Unit Unit (unitWrapper true)
    { max_epochs := 5, early_stopping_patience_epochs := 1 }
    constLosses risingValLosses rfl
    (by norm_num [trainerFit, fitLoop, esDecide, EarlyStopping.observe,
      TrainingModelWrapper.validation_epoch_end,
      TrainingModelWrapper.training_epoch_end, unitWrapper, constLosses,
      risingValLosses, torchMean, decide_eq_true_eq])
    (by norm_num [trainerFit, fitLoop, esDecide, EarlyStopping.observe,
      TrainingModelWrapper.validation_epoch_end,
      TrainingModelWrapper.training_epoch_end, unitWrapper, constLosses,
      risingValLosses, torchMean, decide_eq_true_eq])

end FST
